import Mathlib

/-!
Verification of the gap-fill trading strategy core (ESTRATEGIA_TRADING_GAP_FILL_V3.py
and ESTRATEGIA_TRADING_GAP_FILL.py).

Embedding conventions:
* A pandas OHLCV row becomes a `Bar` of rationals; a DataFrame becomes a `List Bar`
  ordered oldest first, so `df.iloc[-n:]` is `lastN n`, `df.iloc[k]` is `getD k`,
  `df.iloc[-k]` is the head of `drop (length - k)`.
* Exact rational arithmetic stands in for IEEE doubles; `np.nan` results become
  `Option.none` (the `safe_float` helper of the source turns every failed
  extraction into NaN, and all NaN checks are explicit `np.isnan` tests, which
  `Option` matches mirror).
* Python float division by a literal zero raises `ZeroDivisionError`; the places
  where the source can hit it (gap size with zero gap bottom, price trend with a
  zero first close) are modelled by the explicit case the surrounding code ends up
  in (loop `continue` via the enclosing `except`, IEEE ±inf comparison results).
-/

namespace GapFillStrategy

/-- One OHLCV candle (a row of the downloaded DataFrame).  `open_` is the `Open`
column (`open` is a Lean keyword). -/
structure Bar where
  open_ : ℚ
  high : ℚ
  low : ℚ
  close : ℚ
  volume : ℚ
deriving DecidableEq

instance : Inhabited Bar := ⟨⟨0, 0, 0, 0, 0⟩⟩

/-- Mean of a list of rationals (`Series.mean()`; all call sites pass nonempty
lists, where pandas and exact arithmetic agree). -/
def mean (l : List ℚ) : ℚ := l.sum / l.length

/-- Maximum of a list (`Series.max()`; call sites pass nonempty lists). -/
def listMax : List ℚ → ℚ
  | [] => 0
  | x :: xs => xs.foldl max x

/-- Minimum of a list (`Series.min()`; call sites pass nonempty lists). -/
def listMin : List ℚ → ℚ
  | [] => 0
  | x :: xs => xs.foldl min x

/-- The last `n` elements: `df.iloc[-n:]`. -/
def lastN (n : ℕ) (l : List α) : List α := l.drop (l.length - n)

/-- Successive differences of the Close column (`diff()` with the leading NaN
dropped): element `j` is `close (j+1) - close j`. -/
def deltas : List ℚ → List ℚ
  | a :: b :: t => (b - a) :: deltas (b :: t)
  | _ => []

/-- Average gain over the last `period` price changes
(`delta.where(delta > 0, 0).rolling(period).mean()` at the final row). -/
def avgGain (closes : List ℚ) (period : ℕ) : ℚ :=
  ((lastN period (deltas closes)).map fun d => max d 0).sum / (period : ℚ)

/-- Average loss over the last `period` price changes
(`(-delta.where(delta < 0, 0)).rolling(period).mean()` at the final row). -/
def avgLoss (closes : List ℚ) (period : ℕ) : ℚ :=
  ((lastN period (deltas closes)).map fun d => max (-d) 0).sum / (period : ℚ)

/-- RSI (source: `calculate_rsi`).  `none` where the source returns NaN:
fewer than `period + 1` bars, or a flat window (`rs = 0/0` is NaN in pandas).
A window with gains and no losses gives `rs = +inf`, hence RSI `100` — the
documented edge case. -/
def calculate_rsi (closes : List ℚ) (period : ℕ) : Option ℚ :=
  if closes.length < period + 1 then none
  else if avgLoss closes period = 0 then
    if avgGain closes period = 0 then none else some 100
  else some (100 - 100 / (1 + avgGain closes period / avgLoss closes period))

theorem deltas_map_mul (c : ℚ) : ∀ closes : List ℚ,
    deltas (closes.map fun y => c * y) = (deltas closes).map fun y => c * y
  | [] => rfl
  | [_] => rfl
  | a :: b :: t => by
    have ih := deltas_map_mul c (b :: t)
    simp only [List.map_cons, deltas, List.cons.injEq] at ih ⊢
    exact ⟨by ring, ih⟩

theorem lastN_map (n : ℕ) (f : ℚ → ℚ) (l : List ℚ) :
    lastN n (l.map f) = (lastN n l).map f := by
  simp [lastN, ← List.map_drop]

theorem sum_map_mul (c : ℚ) (l : List ℚ) : (l.map fun y => c * y).sum = c * l.sum := by
  induction l with
  | nil => simp
  | cons a t ih => simp [ih]; ring

theorem avgGain_nonneg (closes : List ℚ) (period : ℕ) : 0 ≤ avgGain closes period := by
  apply div_nonneg _ (by positivity)
  apply List.sum_nonneg
  intro y hy
  obtain ⟨d, _, rfl⟩ := List.mem_map.1 hy
  exact le_max_right d 0

theorem avgLoss_nonneg (closes : List ℚ) (period : ℕ) : 0 ≤ avgLoss closes period := by
  apply div_nonneg _ (by positivity)
  apply List.sum_nonneg
  intro y hy
  obtain ⟨d, _, rfl⟩ := List.mem_map.1 hy
  exact le_max_right (-d) 0

/-- C7 main lemma, bounds part: whenever the source RSI is defined it lies in
`[0, 100]`. -/
theorem calculate_rsi_bounds (closes : List ℚ) (x : ℚ)
    (h : calculate_rsi closes 14 = some x) : 0 ≤ x ∧ x ≤ 100 := by
  unfold calculate_rsi at h
  have hgain := avgGain_nonneg closes 14
  have hloss := avgLoss_nonneg closes 14
  split at h
  · exact absurd h (by simp)
  · split at h
    · split at h
      · exact absurd h (by simp)
      · obtain rfl : (100 : ℚ) = x := by injection h
        norm_num
    · obtain rfl : 100 - 100 / (1 + avgGain closes 14 / avgLoss closes 14) = x := by
        injection h
      rename_i hlz
      have hlpos : 0 < avgLoss closes 14 := lt_of_le_of_ne hloss (Ne.symm hlz)
      have hrs : 0 ≤ avgGain closes 14 / avgLoss closes 14 := div_nonneg hgain hloss
      constructor
      · have h1 : (100 : ℚ) / (1 + avgGain closes 14 / avgLoss closes 14) ≤ 100 :=
          div_le_self (by norm_num) (by linarith)
        linarith
      · have h2 : (0 : ℚ) < 100 / (1 + avgGain closes 14 / avgLoss closes 14) :=
          div_pos (by norm_num) (by linarith)
        linarith

theorem max_mul_zero (c d : ℚ) (hc : 0 ≤ c) : max (c * d) 0 = c * max d 0 := by
  have := mul_max_of_nonneg d 0 hc
  rw [mul_zero] at this
  exact this.symm

theorem avgGain_map_mul (closes : List ℚ) (c : ℚ) (hc : 0 < c) (period : ℕ) :
    avgGain (closes.map fun y => c * y) period = c * avgGain closes period := by
  unfold avgGain
  rw [deltas_map_mul, lastN_map, List.map_map]
  have h1 : ((fun d => max d 0) ∘ fun y => c * y) = fun d : ℚ => c * max d 0 :=
    funext fun d => max_mul_zero c d hc.le
  rw [h1, show (fun d : ℚ => c * max d 0) = (fun y : ℚ => c * y) ∘ fun d : ℚ => max d 0
    from rfl, ← List.map_map, sum_map_mul, mul_div_assoc]

theorem avgLoss_map_mul (closes : List ℚ) (c : ℚ) (hc : 0 < c) (period : ℕ) :
    avgLoss (closes.map fun y => c * y) period = c * avgLoss closes period := by
  unfold avgLoss
  rw [deltas_map_mul, lastN_map, List.map_map]
  have h1 : ((fun d => max (-d) 0) ∘ fun y => c * y) = fun d : ℚ => c * max (-d) 0 :=
    funext fun d => by
      have := max_mul_zero c (-d) hc.le
      simpa using this
  rw [h1, show (fun d : ℚ => c * max (-d) 0) = (fun y : ℚ => c * y) ∘ fun d : ℚ => max (-d) 0
    from rfl, ← List.map_map, sum_map_mul, mul_div_assoc]

/-- C7 main lemma, scale part: multiplying every close by a positive constant
leaves the source RSI unchanged. -/
theorem calculate_rsi_scale (closes : List ℚ) (c : ℚ) (hc : 0 < c) :
    calculate_rsi (closes.map fun y => c * y) 14 = calculate_rsi closes 14 := by
  unfold calculate_rsi
  rw [List.length_map, avgGain_map_mul closes c hc, avgLoss_map_mul closes c hc]
  split
  · rfl
  · have hc' : c ≠ 0 := hc.ne'
    have e1 : c * avgLoss closes 14 = 0 ↔ avgLoss closes 14 = 0 := by
      rw [mul_eq_zero]; simp [hc']
    have e2 : c * avgGain closes 14 = 0 ↔ avgGain closes 14 = 0 := by
      rw [mul_eq_zero]; simp [hc']
    by_cases hz : avgLoss closes 14 = 0
    · rw [if_pos (e1.2 hz), if_pos hz]
      by_cases hz2 : avgGain closes 14 = 0
      · rw [if_pos (e2.2 hz2), if_pos hz2]
      · rw [if_neg (fun h => hz2 (e2.1 h)), if_neg hz2]
    · rw [if_neg (fun h => hz (e1.1 h)), if_neg hz]
      rw [mul_div_mul_left _ _ hc']

/-- C7: for every series on which RSI is defined the value lies in `[0, 100]`,
and RSI is invariant under multiplying all prices by a positive constant. -/
theorem rsi_bounds_and_scale_invariance (closes : List ℚ) (c : ℚ) (hc : 0 < c) :
    (∀ x, calculate_rsi closes 14 = some x → 0 ≤ x ∧ x ≤ 100) ∧
    calculate_rsi (closes.map fun y => c * y) 14 = calculate_rsi closes 14 :=
  ⟨fun x hx => calculate_rsi_bounds closes x hx, calculate_rsi_scale closes c hc⟩

/-- A 16-bar monotonically increasing close series: no losses, so RSI is the
edge-case value 100 (spec example 3). -/
def risingCloses : List ℚ := [1, 2, 3, 4, 5, 6, 7, 8, 9, 10, 11, 12, 13, 14, 15, 16]

theorem risingCloses_rsi : calculate_rsi risingCloses 14 = some 100 := by
  norm_num [calculate_rsi, avgGain, avgLoss, risingCloses, deltas, lastN]

theorem rsi_bounds_and_scale_invariance_witness :
    ((0 : ℚ) ≤ 100 ∧ (100 : ℚ) ≤ 100) ∧
      calculate_rsi (risingCloses.map fun y => 2 * y) 14 = calculate_rsi risingCloses 14 :=
  ⟨(rsi_bounds_and_scale_invariance risingCloses 2 (by norm_num)).1 100 risingCloses_rsi,
   (rsi_bounds_and_scale_invariance risingCloses 2 (by norm_num)).2⟩

/-! ### Market structure (detect_consolidation / detect_accumulation /
detect_distribution / analyze_market_structure) -/

/-- The market phase labels used across the classifier (`primary_phase` strings
and the Wyckoff phase strings of the two detectors). -/
inductive MarketPhase where
  | PURE_CONSOLIDATION
  | ACCUMULATION_IN_RANGE
  | DISTRIBUTION_IN_RANGE
  | STRONG_ACCUMULATION
  | POSSIBLE_ACCUMULATION
  | STRONG_DISTRIBUTION
  | POSSIBLE_DISTRIBUTION
  | TRENDING
  | NONE
deriving DecidableEq

/-- Range width over a window of bars:
`((High.max() - Low.min()) / Low.min()) * 100`. -/
def rangePctOf (l : List Bar) : ℚ :=
  ((listMax (l.map Bar.high) - listMin (l.map Bar.low)) / listMin (l.map Bar.low)) * 100

/-- Result tuple of `detect_consolidation`.  The short-history branch returns
`(False, 0.0, nan, nan)`, hence the `Option` levels. -/
structure ConsolidationResult where
  is_consolidating : Bool
  range_pct : ℚ
  resistance : Option ℚ
  support : Option ℚ
deriving DecidableEq

/-- Source: `detect_consolidation(df_1d, lookback=20)`. -/
def detect_consolidation (df : List Bar) (lookback : ℕ) : ConsolidationResult :=
  if df.length < lookback then ⟨false, 0, none, none⟩
  else
    ⟨decide (rangePctOf (lastN lookback df) < 5), rangePctOf (lastN lookback df),
     some (listMax ((lastN lookback df).map Bar.high)),
     some (listMin ((lastN lookback df).map Bar.low))⟩

/-- The accumulation price-trend test `price_trend < 0 or abs(price_trend) < 0.05`
with `price_trend = (close_last - close_0) / close_0`.  When `close_0 = 0` the
Python division produces `±inf` (or NaN for `0/0`) and only `-inf` passes the
test, i.e. the test holds exactly when the last close is negative. -/
abbrev accumPriceSignalP (c0 cLast : ℚ) : Prop :=
  (c0 = 0 ∧ cLast < 0) ∨
    (c0 ≠ 0 ∧ ((cLast - c0) / c0 < 0 ∨ |(cLast - c0) / c0| < 1/20))

/-- The distribution price-trend test `price_trend > 0 or abs(price_trend) < 0.05`;
mirror of `accumPriceSignalP` (only `+inf` passes when `close_0 = 0`). -/
abbrev distribPriceSignalP (c0 cLast : ℚ) : Prop :=
  (c0 = 0 ∧ 0 < cLast) ∨
    (c0 ≠ 0 ∧ (0 < (cLast - c0) / c0 ∨ |(cLast - c0) / c0| < 1/20))

/-- The shared volume test: mean volume of the second half of the window is
strictly below the mean volume of the first half. -/
abbrev volumeDecreasingP (recent : List Bar) (lookback : ℕ) : Prop :=
  mean ((recent.drop (lookback / 2)).map Bar.volume) <
    mean ((recent.take (lookback / 2)).map Bar.volume)

/-- RSI/price samples at offsets −10, −8, −6, −4, −2 from the end of the daily
series (source loop `for i in range(-10, 0, 2)`), keeping only the points where
RSI is defined — the price is read from the Close column at `iloc` position
`i` from the end. -/
def rsiPricePoints (df : List Bar) : List (ℚ × ℚ) :=
  [10, 8, 6, 4, 2].filterMap fun k =>
    match calculate_rsi ((df.take (df.length - k)).map Bar.close) 14 with
    | some r => some (r, ((df.drop (df.length - k)).headD default).close)
    | none => none

/-- Bullish RSI divergence: at least 3 sampled points, RSI trending up while
price trends down between the first and last sample. -/
abbrev bullishDivergenceP (pts : List (ℚ × ℚ)) : Prop :=
  3 ≤ pts.length ∧ (pts.headD (0, 0)).1 < (pts.getLastD (0, 0)).1 ∧
    (pts.getLastD (0, 0)).2 < (pts.headD (0, 0)).2

/-- Bearish RSI divergence: RSI trending down while price trends up. -/
abbrev bearishDivergenceP (pts : List (ℚ × ℚ)) : Prop :=
  3 ≤ pts.length ∧ (pts.getLastD (0, 0)).1 < (pts.headD (0, 0)).1 ∧
    (pts.headD (0, 0)).2 < (pts.getLastD (0, 0)).2

/-- The accumulation score: +1 price in the low zone, +1 volume decreasing,
+1.5 forming a base (20-day range < 8%), +1.5 bullish RSI divergence. -/
def accumulationScore (df : List Bar) (lookback : ℕ) : ℚ :=
  (if accumPriceSignalP ((lastN lookback df).headD default).close
      ((lastN lookback df).getLastD default).close then 1 else 0) +
  (if volumeDecreasingP (lastN lookback df) lookback then 1 else 0) +
  (if rangePctOf (lastN 20 (lastN lookback df)) < 8 then 3/2 else 0) +
  (if bullishDivergenceP (rsiPricePoints df) then 3/2 else 0)

/-- The distribution score: +1 price in the high zone, +1 volume decreasing,
+1.5 forming a top (20-day range < 8%), +1.5 bearish RSI divergence. -/
def distributionScore (df : List Bar) (lookback : ℕ) : ℚ :=
  (if distribPriceSignalP ((lastN lookback df).headD default).close
      ((lastN lookback df).getLastD default).close then 1 else 0) +
  (if volumeDecreasingP (lastN lookback df) lookback then 1 else 0) +
  (if rangePctOf (lastN 20 (lastN lookback df)) < 8 then 3/2 else 0) +
  (if bearishDivergenceP (rsiPricePoints df) then 3/2 else 0)

/-- Result tuple of the two Wyckoff detectors
`(detected, phase, score, signals, action)`. -/
structure WyckoffResult where
  detected : Bool
  phase : MarketPhase
  score : ℚ
  signals : List String
  action : String
deriving DecidableEq

/-- Source: `detect_accumulation(df_1d, lookback=60)`. -/
def detect_accumulation (df : List Bar) (lookback : ℕ) : WyckoffResult :=
  if df.length < lookback then ⟨false, .NONE, 0, [], ""⟩
  else
    ⟨decide (2 ≤ accumulationScore df lookback),
     (if 3 ≤ accumulationScore df lookback then MarketPhase.STRONG_ACCUMULATION
      else if 2 ≤ accumulationScore df lookback then .POSSIBLE_ACCUMULATION else .NONE),
     accumulationScore df lookback,
     ((if accumPriceSignalP ((lastN lookback df).headD default).close
          ((lastN lookback df).getLastD default).close then ["Precio zona baja"] else []) ++
      (if volumeDecreasingP (lastN lookback df) lookback then ["Volumen decreciente"] else []) ++
      (if rangePctOf (lastN 20 (lastN lookback df)) < 8 then ["Formando base"] else []) ++
      (if bullishDivergenceP (rsiPricePoints df) then ["Divergencia RSI alcista"] else [])),
     (if 3 ≤ accumulationScore df lookback then "ACUMULACION FUERTE - Preparar LONG"
      else if 2 ≤ accumulationScore df lookback then "Posible acumulacion - Monitorear"
      else "")⟩

/-- Source: `detect_distribution(df_1d, lookback=60)`. -/
def detect_distribution (df : List Bar) (lookback : ℕ) : WyckoffResult :=
  if df.length < lookback then ⟨false, .NONE, 0, [], ""⟩
  else
    ⟨decide (2 ≤ distributionScore df lookback),
     (if 3 ≤ distributionScore df lookback then MarketPhase.STRONG_DISTRIBUTION
      else if 2 ≤ distributionScore df lookback then .POSSIBLE_DISTRIBUTION else .NONE),
     distributionScore df lookback,
     ((if distribPriceSignalP ((lastN lookback df).headD default).close
          ((lastN lookback df).getLastD default).close then ["Precio zona alta"] else []) ++
      (if volumeDecreasingP (lastN lookback df) lookback then ["Volumen decreciente"] else []) ++
      (if rangePctOf (lastN 20 (lastN lookback df)) < 8 then ["Formando techo"] else []) ++
      (if bearishDivergenceP (rsiPricePoints df) then ["Divergencia RSI bajista"] else [])),
     (if 3 ≤ distributionScore df lookback then "DISTRIBUCION FUERTE - Preparar SHORT"
      else if 2 ≤ distributionScore df lookback then "Posible distribucion - Monitorear"
      else "")⟩

/-- The dictionary returned by `analyze_market_structure` (the action strings of
the sub-results are carried inside the `WyckoffResult`s). -/
structure StructureResult where
  primary_phase : MarketPhase
  recommendation : String
  confidence_adjustment : ℚ
  consolidation_is : Bool
  consolidation_range_pct : ℚ
  consolidation_resistance : Option ℚ
  consolidation_support : Option ℚ
  consolidation_position : String
  accumulation : WyckoffResult
  distribution : WyckoffResult

/-- Source: `analyze_market_structure(df_1d, last_price)`.  In the consolidating
branch the `resistance`/`support` of `detect_consolidation` are defined
(length ≥ 20), so `getD 0` reads the actual levels.  For `last_price = 0` the
Python `position` computation would raise; the classification itself does not
depend on `position`. -/
def analyze_market_structure (df : List Bar) (last_price : ℚ) : StructureResult :=
  if (detect_consolidation df 20).is_consolidating = true then
    (if (detect_accumulation df 60).detected = true ∧
        (detect_distribution df 60).score < (detect_accumulation df 60).score then
      ⟨.ACCUMULATION_IN_RANGE, "Consolidacion con acumulacion - ESPERAR breakout", 4/5,
       true, (detect_consolidation df 20).range_pct,
       (detect_consolidation df 20).resistance, (detect_consolidation df 20).support,
       (if ((detect_consolidation df 20).resistance.getD 0 - last_price) / last_price * 100 < 1
        then "NEAR_RESISTANCE"
        else if (last_price - (detect_consolidation df 20).support.getD 0) / last_price * 100 < 1
        then "NEAR_SUPPORT" else "MID_RANGE"),
       detect_accumulation df 60, detect_distribution df 60⟩
     else if (detect_distribution df 60).detected = true ∧
        (detect_accumulation df 60).score < (detect_distribution df 60).score then
      ⟨.DISTRIBUTION_IN_RANGE, "Consolidacion con distribucion - ESPERAR breakdown", 4/5,
       true, (detect_consolidation df 20).range_pct,
       (detect_consolidation df 20).resistance, (detect_consolidation df 20).support,
       (if ((detect_consolidation df 20).resistance.getD 0 - last_price) / last_price * 100 < 1
        then "NEAR_RESISTANCE"
        else if (last_price - (detect_consolidation df 20).support.getD 0) / last_price * 100 < 1
        then "NEAR_SUPPORT" else "MID_RANGE"),
       detect_accumulation df 60, detect_distribution df 60⟩
     else
      ⟨.PURE_CONSOLIDATION, "CONSOLIDACION PURA - NO OPERAR", 1/2,
       true, (detect_consolidation df 20).range_pct,
       (detect_consolidation df 20).resistance, (detect_consolidation df 20).support,
       (if ((detect_consolidation df 20).resistance.getD 0 - last_price) / last_price * 100 < 1
        then "NEAR_RESISTANCE"
        else if (last_price - (detect_consolidation df 20).support.getD 0) / last_price * 100 < 1
        then "NEAR_SUPPORT" else "MID_RANGE"),
       detect_accumulation df 60, detect_distribution df 60⟩)
  else if (detect_accumulation df 60).detected = true ∧
      (detect_distribution df 60).detected = false then
    ⟨(detect_accumulation df 60).phase, (detect_accumulation df 60).action,
     (if (detect_accumulation df 60).phase = .STRONG_ACCUMULATION then 6/5 else 11/10),
     false, 0, none, none, "N/A", detect_accumulation df 60, detect_distribution df 60⟩
  else if (detect_distribution df 60).detected = true ∧
      (detect_accumulation df 60).detected = false then
    ⟨(detect_distribution df 60).phase, (detect_distribution df 60).action,
     (if (detect_distribution df 60).phase = .STRONG_DISTRIBUTION then 6/5 else 11/10),
     false, 0, none, none, "N/A", detect_accumulation df 60, detect_distribution df 60⟩
  else
    ⟨.TRENDING, "Tendencia clara - Operar normal", 1,
     false, 0, none, none, "N/A", detect_accumulation df 60, detect_distribution df 60⟩

/-- C9: on a daily series with fewer than 20 bars, consolidation detection
reports not-consolidating, both Wyckoff detectors report not-detected with score
0, and the classifier returns TRENDING with confidence adjustment 1.0 — short
history never dampens or amplifies the confidence score. -/
theorem short_history_is_trending (df : List Bar) (p : ℚ) (h : df.length < 20) :
    (detect_consolidation df 20).is_consolidating = false ∧
    (detect_accumulation df 60).detected = false ∧ (detect_accumulation df 60).score = 0 ∧
    (detect_distribution df 60).detected = false ∧ (detect_distribution df 60).score = 0 ∧
    (analyze_market_structure df p).primary_phase = MarketPhase.TRENDING ∧
    (analyze_market_structure df p).confidence_adjustment = 1 := by
  have h60 : df.length < 60 := by omega
  simp [detect_consolidation, detect_accumulation, detect_distribution,
    analyze_market_structure, h, h60]

theorem short_history_is_trending_witness :
    (detect_consolidation [] 20).is_consolidating = false ∧
    (detect_accumulation [] 60).detected = false ∧ (detect_accumulation [] 60).score = 0 ∧
    (detect_distribution [] 60).detected = false ∧ (detect_distribution [] 60).score = 0 ∧
    (analyze_market_structure [] 1).primary_phase = MarketPhase.TRENDING ∧
    (analyze_market_structure [] 1).confidence_adjustment = 1 :=
  short_history_is_trending [] 1 (by simp)

theorem lastN_lastN_20_60 (df : List Bar) (h : 60 ≤ df.length) :
    lastN 20 (lastN 60 df) = lastN 20 df := by
  unfold lastN
  rw [List.length_drop, List.drop_drop]
  congr 1
  omega

theorem consolidating_elim (df : List Bar)
    (h : (detect_consolidation df 20).is_consolidating = true) :
    20 ≤ df.length ∧ rangePctOf (lastN 20 df) < 5 := by
  unfold detect_consolidation at h
  by_cases hl : df.length < 20
  · rw [if_pos hl] at h
    simp at h
  · rw [if_neg hl] at h
    simp only [decide_eq_true_eq] at h
    exact ⟨by omega, h⟩

/-- Arithmetic skeleton shared by the two detectors inside a consolidation:
when both scores include the 1.5 base/top contribution and the same volume
contribution, strict dominance forces the dominating score to reach at least 2
(the detection threshold). -/
theorem score_dominance (pa pd da dd v : ℚ)
    (hpa : pa = 0 ∨ pa = 1) (hpd : pd = 0 ∨ pd = 1)
    (hda : da = 0 ∨ da = 3/2) (hdd : dd = 0 ∨ dd = 3/2)
    (hv : v = 0 ∨ v = 1)
    (hlt : pd + v + 3/2 + dd < pa + v + 3/2 + da) :
    2 ≤ pa + v + 3/2 + da := by
  rcases hpa with rfl | rfl <;> rcases hpd with rfl | rfl <;>
    rcases hda with rfl | rfl <;> rcases hdd with rfl | rfl <;>
    rcases hv with rfl | rfl <;> linarith

theorem accum_score_ge_two (df : List Bar) (h60 : 60 ≤ df.length)
    (hr : rangePctOf (lastN 20 df) < 5)
    (hlt : distributionScore df 60 < accumulationScore df 60) :
    2 ≤ accumulationScore df 60 := by
  have hbase : rangePctOf (lastN 20 (lastN 60 df)) < 8 := by
    rw [lastN_lastN_20_60 df h60]
    linarith
  simp only [accumulationScore, distributionScore] at hlt ⊢
  rw [if_pos hbase] at hlt ⊢
  exact score_dominance _ _ _ _ _
    (by split_ifs <;> norm_num) (by split_ifs <;> norm_num)
    (by split_ifs <;> norm_num) (by split_ifs <;> norm_num)
    (by split_ifs <;> norm_num) hlt

theorem distrib_score_ge_two (df : List Bar) (h60 : 60 ≤ df.length)
    (hr : rangePctOf (lastN 20 df) < 5)
    (hlt : accumulationScore df 60 < distributionScore df 60) :
    2 ≤ distributionScore df 60 := by
  have hbase : rangePctOf (lastN 20 (lastN 60 df)) < 8 := by
    rw [lastN_lastN_20_60 df h60]
    linarith
  simp only [accumulationScore, distributionScore] at hlt ⊢
  rw [if_pos hbase] at hlt ⊢
  exact score_dominance _ _ _ _ _
    (by split_ifs <;> norm_num) (by split_ifs <;> norm_num)
    (by split_ifs <;> norm_num) (by split_ifs <;> norm_num)
    (by split_ifs <;> norm_num) hlt

/-- C2: inside a consolidation the classifier resolves by score dominance —
strictly larger accumulation score gives ACCUMULATION_IN_RANGE with multiplier
0.8, strictly larger distribution score gives DISTRIBUTION_IN_RANGE with 0.8,
and a tie gives PURE_CONSOLIDATION with 0.5.  The `detected` gate of the source
condition is implied: under a consolidation any strictly dominating score is at
least 2. -/
theorem consolidation_phase_precedence (df : List Bar) (p : ℚ)
    (hcons : (detect_consolidation df 20).is_consolidating = true) :
    ((detect_distribution df 60).score < (detect_accumulation df 60).score →
      (analyze_market_structure df p).primary_phase = MarketPhase.ACCUMULATION_IN_RANGE ∧
      (analyze_market_structure df p).confidence_adjustment = 4/5) ∧
    ((detect_accumulation df 60).score < (detect_distribution df 60).score →
      (analyze_market_structure df p).primary_phase = MarketPhase.DISTRIBUTION_IN_RANGE ∧
      (analyze_market_structure df p).confidence_adjustment = 4/5) ∧
    ((detect_accumulation df 60).score = (detect_distribution df 60).score →
      (analyze_market_structure df p).primary_phase = MarketPhase.PURE_CONSOLIDATION ∧
      (analyze_market_structure df p).confidence_adjustment = 1/2) := by
  obtain ⟨h20, hr⟩ := consolidating_elim df hcons
  by_cases h60 : df.length < 60
  · have ha : detect_accumulation df 60 = ⟨false, .NONE, 0, [], ""⟩ := by
      unfold detect_accumulation
      rw [if_pos h60]
    have hd : detect_distribution df 60 = ⟨false, .NONE, 0, [], ""⟩ := by
      unfold detect_distribution
      rw [if_pos h60]
    refine ⟨fun hlt => ?_, fun hlt => ?_, fun _ => ?_⟩
    · rw [ha, hd] at hlt
      exact absurd hlt (lt_irrefl 0)
    · rw [ha, hd] at hlt
      exact absurd hlt (lt_irrefl 0)
    · unfold analyze_market_structure
      rw [if_pos hcons, if_neg (by rw [ha]; rintro ⟨h1, -⟩; simp at h1),
        if_neg (by rw [hd]; rintro ⟨h1, -⟩; simp at h1)]
      exact ⟨rfl, rfl⟩
  · have h60' : 60 ≤ df.length := by omega
    have hsA : (detect_accumulation df 60).score = accumulationScore df 60 := by
      unfold detect_accumulation
      rw [if_neg h60]
    have hsD : (detect_distribution df 60).score = distributionScore df 60 := by
      unfold detect_distribution
      rw [if_neg h60]
    refine ⟨fun hlt => ?_, fun hlt => ?_, fun heq => ?_⟩
    · have h2 : 2 ≤ accumulationScore df 60 := by
        apply accum_score_ge_two df h60' hr
        rw [← hsA, ← hsD]
        exact hlt
      have hdet : (detect_accumulation df 60).detected = true := by
        unfold detect_accumulation
        rw [if_neg h60]
        exact decide_eq_true h2
      unfold analyze_market_structure
      rw [if_pos hcons, if_pos ⟨hdet, hlt⟩]
      exact ⟨rfl, rfl⟩
    · have h2 : 2 ≤ distributionScore df 60 := by
        apply distrib_score_ge_two df h60' hr
        rw [← hsA, ← hsD]
        exact hlt
      have hdet : (detect_distribution df 60).detected = true := by
        unfold detect_distribution
        rw [if_neg h60]
        exact decide_eq_true h2
      unfold analyze_market_structure
      rw [if_pos hcons, if_neg (by rintro ⟨-, h1⟩; exact absurd (h1.trans hlt) (lt_irrefl _)),
        if_pos ⟨hdet, hlt⟩]
      exact ⟨rfl, rfl⟩
    · unfold analyze_market_structure
      rw [if_pos hcons, if_neg (by rintro ⟨-, h1⟩; rw [heq] at h1; exact absurd h1 (lt_irrefl _)),
        if_neg (by rintro ⟨-, h1⟩; rw [heq] at h1; exact absurd h1 (lt_irrefl _))]
      exact ⟨rfl, rfl⟩

/-- A flat bar used to build concrete consolidating fixtures. -/
def flatBar : Bar := ⟨1, 1, 1, 1, 1⟩

/-- Twenty identical bars: a 0% 20-day range, hence a consolidation, with too
little history for the Wyckoff detectors (tie at score 0). -/
def consolidatingBars : List Bar :=
  [flatBar, flatBar, flatBar, flatBar, flatBar, flatBar, flatBar, flatBar, flatBar, flatBar,
   flatBar, flatBar, flatBar, flatBar, flatBar, flatBar, flatBar, flatBar, flatBar, flatBar]

theorem consolidation_phase_precedence_witness :
    (analyze_market_structure consolidatingBars 1).primary_phase =
      MarketPhase.PURE_CONSOLIDATION ∧
    (analyze_market_structure consolidatingBars 1).confidence_adjustment = 1/2 :=
  (consolidation_phase_precedence consolidatingBars 1
    (by norm_num [detect_consolidation, consolidatingBars, flatBar, lastN, rangePctOf,
      listMax, listMin])).2.2
    (by norm_num [detect_accumulation, detect_distribution, consolidatingBars])

/-! ### Pivot points and the close-vs-close gap detector -/

/-- The second-to-last bar `df.iloc[-2]` (the last fully closed daily candle). -/
def prevBar (df : List Bar) : Bar := (df.drop (df.length - 2)).headD default

/-- Pivot point `PP = (H_prev + L_prev + C_prev) / 3`. -/
def pivotPP (df : List Bar) : ℚ :=
  ((prevBar df).high + (prevBar df).low + (prevBar df).close) / 3

/-- First resistance `R1 = 2*PP - L_prev`. -/
def pivotR1 (df : List Bar) : ℚ := 2 * pivotPP df - (prevBar df).low

/-- First support `S1 = 2*PP - H_prev`. -/
def pivotS1 (df : List Bar) : ℚ := 2 * pivotPP df - (prevBar df).high

/-- Source: `calculate_pivot_points` after the download step — the pivot levels
and the error slot of its return tuple `(PP, R1, S1, df_1d, error)`.  With fewer
than 2 daily bars (including the empty frame) it returns NaN levels and the
message `"Datos insuficientes"`. -/
def calculate_pivot_points (df_1d : List Bar) :
    (Option ℚ × Option ℚ × Option ℚ) × Option String :=
  if df_1d.length < 2 then ((none, none, none), some "Datos insuficientes")
  else ((some (pivotPP df_1d), some (pivotR1 df_1d), some (pivotS1 df_1d)), none)

/-- Source: the pivot gate at the top of `analyze_pre_ny` — a pivot error makes
the per-instrument analysis return the error string (`some message`) instead of
continuing towards a trade plan (`none`). -/
def analyze_pivot_gate (symbol : String) (df_1d : List Bar) : Option String :=
  match (calculate_pivot_points df_1d).2 with
  | some err => some ("Error de Pivotes (1D) para " ++ symbol ++ ": " ++ err)
  | none => none

/-- C5: with at least 2 daily bars the pivots come from the second-to-last bar
via PP = (H+L+C)/3, R1 = 2·PP−L, S1 = 2·PP−H, and for a well-formed bar
(L ≤ C ≤ H) with H ≠ L the strict ordering S1 < PP < R1 holds. -/
theorem pivot_formulas_and_ordering (df : List Bar) (hlen : 2 ≤ df.length)
    (hLC : (prevBar df).low ≤ (prevBar df).close)
    (hCH : (prevBar df).close ≤ (prevBar df).high)
    (hne : (prevBar df).high ≠ (prevBar df).low) :
    calculate_pivot_points df =
      ((some (((prevBar df).high + (prevBar df).low + (prevBar df).close) / 3),
        some (2 * pivotPP df - (prevBar df).low),
        some (2 * pivotPP df - (prevBar df).high)), none) ∧
    pivotS1 df < pivotPP df ∧ pivotPP df < pivotR1 df := by
  have hLH : (prevBar df).low < (prevBar df).high :=
    lt_of_le_of_ne (hLC.trans hCH) (Ne.symm hne)
  refine ⟨?_, ?_, ?_⟩
  · unfold calculate_pivot_points pivotR1 pivotS1 pivotPP
    rw [if_neg (by omega)]
  · unfold pivotS1 pivotPP
    linarith
  · unfold pivotR1 pivotPP
    linarith

/-- Spec example 1: prior bar H=100, L=90, C=95 gives PP=95, R1=100, S1=90. -/
def pivotExampleBars : List Bar := [⟨95, 100, 90, 95, 1⟩, ⟨95, 96, 94, 95, 1⟩]

theorem pivot_formulas_and_ordering_witness :
    calculate_pivot_points pivotExampleBars = ((some 95, some 100, some 90), none) ∧
    (90 : ℚ) < 95 ∧ (95 : ℚ) < 100 := by
  have h := pivot_formulas_and_ordering pivotExampleBars (by norm_num [pivotExampleBars])
    (by norm_num [pivotExampleBars, prevBar]) (by norm_num [pivotExampleBars, prevBar])
    (by norm_num [pivotExampleBars, prevBar])
  norm_num [pivotExampleBars, prevBar, pivotPP, pivotR1, pivotS1] at h
  exact ⟨h, by norm_num, by norm_num⟩

/-- C8: with fewer than 2 daily bars the pivot computation fails with NaN levels
and the message "Datos insuficientes", and the analysis gate aborts with a
descriptive error instead of continuing to a trade plan. -/
theorem insufficient_daily_bars_abort (symbol : String) (df : List Bar)
    (h : df.length < 2) :
    calculate_pivot_points df = ((none, none, none), some "Datos insuficientes") ∧
    analyze_pivot_gate symbol df =
      some ("Error de Pivotes (1D) para " ++ symbol ++ ": " ++ "Datos insuficientes") := by
  have h1 : calculate_pivot_points df = ((none, none, none), some "Datos insuficientes") := by
    unfold calculate_pivot_points
    rw [if_pos h]
  refine ⟨h1, ?_⟩
  unfold analyze_pivot_gate
  rw [h1]

theorem insufficient_daily_bars_abort_witness :
    calculate_pivot_points ([⟨1, 1, 1, 1, 1⟩] : List Bar) =
      ((none, none, none), some "Datos insuficientes") ∧
    analyze_pivot_gate "BTC-USD" [⟨1, 1, 1, 1, 1⟩] =
      some ("Error de Pivotes (1D) para " ++ "BTC-USD" ++ ": " ++ "Datos insuficientes") :=
  insufficient_daily_bars_abort "BTC-USD" [⟨1, 1, 1, 1, 1⟩] (by norm_num)

/-- The `signal` labels of the gap detectors. -/
inductive GapSignal where
  | SHORT_TO_FILL
  | LONG_TO_FILL
  | NO_GAP
deriving DecidableEq

/-- Source: `detect_cme_gap(df_1d, last_price)` (ESTRATEGIA_TRADING_GAP_FILL.py):
compares the current price with the close of the second-to-last daily bar at the
fixed threshold `THRESHOLD_PCT = 0.005`. -/
def detect_cme_gap (df_1d : List Bar) (last_price : ℚ) : GapSignal × Option ℚ :=
  if df_1d.length < 2 then (.NO_GAP, none)
  else if (prevBar df_1d).close * (1 + 1/200) < last_price then
    (.SHORT_TO_FILL, some (prevBar df_1d).close)
  else if last_price < (prevBar df_1d).close * (1 - 1/200) then
    (.LONG_TO_FILL, some (prevBar df_1d).close)
  else (.NO_GAP, none)

/-- C4: with at least 2 daily bars the detector compares the current price with
the close `c` of the second-to-last bar: more than 0.5% above `c` gives
SHORT_TO_FILL at level `c`, more than 0.5% below (and not the former, to which
the `elif` of the source gives precedence) gives LONG_TO_FILL at level `c`,
otherwise NO_GAP. -/
theorem cme_gap_trichotomy (df : List Bar) (p : ℚ) (hlen : 2 ≤ df.length) :
    ((prevBar df).close * (1 + 1/200) < p →
      detect_cme_gap df p = (.SHORT_TO_FILL, some (prevBar df).close)) ∧
    (¬((prevBar df).close * (1 + 1/200) < p) →
      p < (prevBar df).close * (1 - 1/200) →
      detect_cme_gap df p = (.LONG_TO_FILL, some (prevBar df).close)) ∧
    (¬((prevBar df).close * (1 + 1/200) < p) →
      ¬(p < (prevBar df).close * (1 - 1/200)) →
      detect_cme_gap df p = (.NO_GAP, none)) := by
  refine ⟨fun h1 => ?_, fun h1 h2 => ?_, fun h1 h2 => ?_⟩
  · unfold detect_cme_gap
    rw [if_neg (by omega), if_pos h1]
  · unfold detect_cme_gap
    rw [if_neg (by omega), if_neg h1, if_pos h2]
  · unfold detect_cme_gap
    rw [if_neg (by omega), if_neg h1, if_neg h2]

/-- Spec example 2: prior close 100, last price 105, threshold 0.5%. -/
def cmeExampleBars : List Bar := [⟨100, 101, 99, 100, 1⟩, ⟨105, 106, 104, 105, 1⟩]

theorem cme_gap_trichotomy_witness :
    detect_cme_gap cmeExampleBars 105 = (.SHORT_TO_FILL, some 100) := by
  have h := (cme_gap_trichotomy cmeExampleBars 105 (by norm_num [cmeExampleBars])).1
    (by norm_num [cmeExampleBars, prevBar])
  norm_num [cmeExampleBars, prevBar] at h
  exact h

/-! ### Level validation (validate_levels and the TP3 fixup of analyze_pre_ny) -/

/-- Which of `"SHORT" in decision` / `"LONG" in decision` holds for the decision
string (they are mutually exclusive for every decision label the source builds;
`"SHORT"` is tested first). -/
inductive DecisionSide where
  | short
  | long
  | neither
deriving DecidableEq

/-- SHORT branch, stop loss: `if sl_p <= entry: sl_p = entry + atr * 1.5`. -/
def validateShortSL (e a : ℚ) (sl : Option ℚ) : Option ℚ :=
  match sl with
  | some s => if s ≤ e then some (e + a * (3/2)) else some s
  | none => none

/-- SHORT branch, TP1: `if tp1_p >= entry: tp1_p = entry - atr * 1.0`. -/
def validateShortTP1 (e a : ℚ) (tp1 : Option ℚ) : Option ℚ :=
  match tp1 with
  | some t => if e ≤ t then some (e - a * 1) else some t
  | none => none

/-- SHORT branch, TP2: first clamp against the entry
(`if tp2_p >= entry: tp2_p = entry - atr * 2.0`), then against the already
validated TP1 (`if tp2_p >= tp1_p: tp2_p = tp1_p - atr * 1.0`). -/
def validateShortTP2 (e a : ℚ) (tp1v tp2 : Option ℚ) : Option ℚ :=
  match tp2 with
  | some t =>
    match tp1v with
    | some t1 => if t1 ≤ (if e ≤ t then e - a * 2 else t) then some (t1 - a * 1)
                 else some (if e ≤ t then e - a * 2 else t)
    | none => some (if e ≤ t then e - a * 2 else t)
  | none => none

/-- LONG branch, stop loss: `if sl_p >= entry: sl_p = entry - atr * 1.5`. -/
def validateLongSL (e a : ℚ) (sl : Option ℚ) : Option ℚ :=
  match sl with
  | some s => if e ≤ s then some (e - a * (3/2)) else some s
  | none => none

/-- LONG branch, TP1: `if tp1_p <= entry: tp1_p = entry + atr * 1.0`. -/
def validateLongTP1 (e a : ℚ) (tp1 : Option ℚ) : Option ℚ :=
  match tp1 with
  | some t => if t ≤ e then some (e + a * 1) else some t
  | none => none

/-- LONG branch, TP2: clamp against entry then against the validated TP1. -/
def validateLongTP2 (e a : ℚ) (tp1v tp2 : Option ℚ) : Option ℚ :=
  match tp2 with
  | some t =>
    match tp1v with
    | some t1 => if (if t ≤ e then e + a * 2 else t) ≤ t1 then some (t1 + a * 1)
                 else some (if t ≤ e then e + a * 2 else t)
    | none => some (if t ≤ e then e + a * 2 else t)
  | none => none

/-- Source: `validate_levels(decision, entry_p, sl_p, tp1_p, tp2_p, atr,
last_price)` of ESTRATEGIA_TRADING_GAP_FILL_V3.py.  A NaN entry or NaN ATR
leaves all levels untouched; `last_price` is unused by the source as well. -/
def validate_levels (side : DecisionSide) (entry_p sl_p tp1_p tp2_p atr : Option ℚ)
    (last_price : ℚ) : Option ℚ × Option ℚ × Option ℚ × Option ℚ :=
  match entry_p, atr with
  | some e, some a =>
    (match side with
     | .short => (some e, validateShortSL e a sl_p, validateShortTP1 e a tp1_p,
                  validateShortTP2 e a (validateShortTP1 e a tp1_p) tp2_p)
     | .long => (some e, validateLongSL e a sl_p, validateLongTP1 e a tp1_p,
                 validateLongTP2 e a (validateLongTP1 e a tp1_p) tp2_p)
     | .neither => (some e, sl_p, tp1_p, tp2_p))
  | _, _ => (entry_p, sl_p, tp1_p, tp2_p)

/-- Source: the TP3 fixup applied in `analyze_pre_ny` directly after
`validate_levels` (`tp3_p = tp2_p - atr * 1.0` when a SHORT TP3 is not strictly
below TP2, mirrored for LONG; a NaN ATR turns the recomputed TP3 into NaN). -/
def fix_tp3 (side : DecisionSide) (tp2v tp3 atr : Option ℚ) : Option ℚ :=
  match side with
  | .short =>
    match tp3 with
    | some t3 =>
      match tp2v with
      | some t2 => if t2 ≤ t3 then
                     (match atr with
                      | some a => some (t2 - a * 1)
                      | none => none)
                   else some t3
      | none => some t3
    | none => none
  | .long =>
    match tp3 with
    | some t3 =>
      match tp2v with
      | some t2 => if t3 ≤ t2 then
                     (match atr with
                      | some a => some (t2 + a * 1)
                      | none => none)
                   else some t3
      | none => some t3
    | none => none
  | .neither => tp3

/-- The five levels of an emitted signal after `validate_levels` and the TP3
fixup, in the order (entry, stopLoss, TP1, TP2, TP3). -/
def validated_levels (side : DecisionSide) (entry sl tp1 tp2 tp3 atr : Option ℚ)
    (last_price : ℚ) : Option ℚ × Option ℚ × Option ℚ × Option ℚ × Option ℚ :=
  ((validate_levels side entry sl tp1 tp2 atr last_price).1,
   (validate_levels side entry sl tp1 tp2 atr last_price).2.1,
   (validate_levels side entry sl tp1 tp2 atr last_price).2.2.1,
   (validate_levels side entry sl tp1 tp2 atr last_price).2.2.2,
   fix_tp3 side (validate_levels side entry sl tp1 tp2 atr last_price).2.2.2 tp3 atr)

/-- Strict SHORT level ordering stopLoss > entry > TP1 > TP2 > TP3, with all
five levels present. -/
def shortLevelsOrdered : Option ℚ × Option ℚ × Option ℚ × Option ℚ × Option ℚ → Prop
  | (some e, some s, some t1, some t2, some t3) => e < s ∧ t1 < e ∧ t2 < t1 ∧ t3 < t2
  | _ => False

/-- Strict LONG level ordering stopLoss < entry < TP1 < TP2 < TP3, with all
five levels present. -/
def longLevelsOrdered : Option ℚ × Option ℚ × Option ℚ × Option ℚ × Option ℚ → Prop
  | (some e, some s, some t1, some t2, some t3) => s < e ∧ e < t1 ∧ t1 < t2 ∧ t2 < t3
  | _ => False

/-- C1 (amended): for an emitted decision with non-NaN entry, strictly positive
non-NaN ATR and non-NaN raw SL/TP1/TP2/TP3, the validated levels satisfy the
strict SHORT ordering stopLoss > entry > TP1 > TP2 > TP3, and mirrored for
LONG. -/
theorem validateShortSL_some (e a s : ℚ) (ha : 0 < a) :
    ∃ v, validateShortSL e a (some s) = some v ∧ e < v := by
  unfold validateShortSL
  dsimp only
  split_ifs with h
  · exact ⟨_, rfl, by linarith⟩
  · exact ⟨s, rfl, by linarith⟩

theorem validateShortTP1_some (e a t1 : ℚ) (ha : 0 < a) :
    ∃ v, validateShortTP1 e a (some t1) = some v ∧ v < e := by
  unfold validateShortTP1
  dsimp only
  split_ifs with h
  · exact ⟨_, rfl, by linarith⟩
  · exact ⟨t1, rfl, by linarith⟩

theorem validateShortTP2_some (e a t1v t2 : ℚ) (ha : 0 < a) (h1 : t1v < e) :
    ∃ v, validateShortTP2 e a (some t1v) (some t2) = some v ∧ v < t1v := by
  unfold validateShortTP2
  dsimp only
  split_ifs with h h2 h3 <;>
    first
      | exact ⟨_, rfl, by linarith⟩
      | exact ⟨_, rfl, by linarith⟩

theorem fix_tp3_short_some (t2v t3 a : ℚ) (ha : 0 < a) :
    ∃ v, fix_tp3 .short (some t2v) (some t3) (some a) = some v ∧ v < t2v := by
  unfold fix_tp3
  dsimp only
  split_ifs with h
  · exact ⟨_, rfl, by linarith⟩
  · exact ⟨t3, rfl, by linarith⟩

theorem validateLongSL_some (e a s : ℚ) (ha : 0 < a) :
    ∃ v, validateLongSL e a (some s) = some v ∧ v < e := by
  unfold validateLongSL
  dsimp only
  split_ifs with h
  · exact ⟨_, rfl, by linarith⟩
  · exact ⟨s, rfl, by linarith⟩

theorem validateLongTP1_some (e a t1 : ℚ) (ha : 0 < a) :
    ∃ v, validateLongTP1 e a (some t1) = some v ∧ e < v := by
  unfold validateLongTP1
  dsimp only
  split_ifs with h
  · exact ⟨_, rfl, by linarith⟩
  · exact ⟨t1, rfl, by linarith⟩

theorem validateLongTP2_some (e a t1v t2 : ℚ) (ha : 0 < a) (h1 : e < t1v) :
    ∃ v, validateLongTP2 e a (some t1v) (some t2) = some v ∧ t1v < v := by
  unfold validateLongTP2
  dsimp only
  split_ifs with h h2 h3 <;>
    first
      | exact ⟨_, rfl, by linarith⟩
      | exact ⟨_, rfl, by linarith⟩

theorem fix_tp3_long_some (t2v t3 a : ℚ) (ha : 0 < a) :
    ∃ v, fix_tp3 .long (some t2v) (some t3) (some a) = some v ∧ t2v < v := by
  unfold fix_tp3
  dsimp only
  split_ifs with h
  · exact ⟨_, rfl, by linarith⟩
  · exact ⟨t3, rfl, by linarith⟩

theorem validated_levels_ordering (e a s t1 t2 t3 p : ℚ) (ha : 0 < a) :
    shortLevelsOrdered (validated_levels .short (some e) (some s) (some t1) (some t2)
      (some t3) (some a) p) ∧
    longLevelsOrdered (validated_levels .long (some e) (some s) (some t1) (some t2)
      (some t3) (some a) p) := by
  constructor
  · obtain ⟨s', hs, hs'⟩ := validateShortSL_some e a s ha
    obtain ⟨t1', h1, h1'⟩ := validateShortTP1_some e a t1 ha
    obtain ⟨t2', h2, h2'⟩ := validateShortTP2_some e a t1' t2 ha h1'
    obtain ⟨t3', h3, h3'⟩ := fix_tp3_short_some t2' t3 a ha
    simp only [validated_levels, validate_levels]
    rw [hs, h1, h2, h3]
    simp only [shortLevelsOrdered]
    exact ⟨hs', h1', h2', h3'⟩
  · obtain ⟨s', hs, hs'⟩ := validateLongSL_some e a s ha
    obtain ⟨t1', h1, h1'⟩ := validateLongTP1_some e a t1 ha
    obtain ⟨t2', h2, h2'⟩ := validateLongTP2_some e a t1' t2 ha h1'
    obtain ⟨t3', h3, h3'⟩ := fix_tp3_long_some t2' t3 a ha
    simp only [validated_levels, validate_levels]
    rw [hs, h1, h2, h3]
    simp only [longLevelsOrdered]
    exact ⟨hs', h1', h2', h3'⟩

theorem validated_levels_ordering_witness :
    shortLevelsOrdered (validated_levels .short (some 100) (some 105) (some 99) (some 98)
      (some 97) (some 1) 100) ∧
    longLevelsOrdered (validated_levels .long (some 100) (some 105) (some 99) (some 98)
      (some 97) (some 1) 100) :=
  validated_levels_ordering 100 1 105 99 98 97 100 (by norm_num)

/-- C1 counterexample: with ATR = 0 (non-NaN) the SHORT stop loss is left equal
to the entry, so the claimed strict ordering fails for an emitted decision with
non-NaN entry and ATR. -/
theorem validate_levels_zero_atr_counterexample :
    ¬ shortLevelsOrdered (validated_levels .short (some 100) (some 100) (some 99)
      (some 98) (some 97) (some 0) 100) := by
  intro h
  norm_num [validated_levels, validate_levels, validateShortSL, validateShortTP1,
    validateShortTP2, fix_tp3, shortLevelsOrdered] at h

/-! ### Comprehensive gap scan (find_all_gaps_comprehensive) -/

inductive GapType where
  | GAP_UP
  | GAP_DOWN
deriving DecidableEq

inductive GapStrength where
  | STRONG
  | MEDIUM
  | WEAK
deriving DecidableEq

/-- Gap strength bucket: STRONG above 2%, MEDIUM above 1%, else WEAK. -/
def gapStrengthOf (size_pct : ℚ) : GapStrength :=
  if 2 < size_pct then .STRONG else if 1 < size_pct then .MEDIUM else .WEAK

/-- The `gap_info` dictionary built for every unfilled gap. -/
structure GapInfo where
  level : ℚ
  bottom : ℚ
  top : ℚ
  gtype : GapType
  age_days : ℕ
  size_pct : ℚ
  strength : GapStrength
deriving DecidableEq

/-- One iteration of the scan loop of `find_all_gaps_comprehensive` at position
`i` (the bar pair `(i-1, i)` of the scanned window): `some gap_info` when the
pair opens a gap that no bar from `i` to the end has filled, `none` otherwise.
The fill scan `for j in range(i, len(df_recent))` is the bounded existential
over `recent.drop i`.  A zero gap bottom would make the Python `size_pct`
division raise, and the `except: continue` skips the iteration — hence `none`.
-/
def gapAt (recent : List Bar) (i : ℕ) : Option GapInfo :=
  if i = 0 then none
  else if recent.length ≤ i then none
  else if (recent.getD (i-1) default).high < (recent.getD i default).low then
    (if ∃ b ∈ recent.drop i, b.low ≤ (recent.getD (i-1) default).high then none
     else if (recent.getD (i-1) default).high = 0 then none
     else some
       { level := ((recent.getD (i-1) default).high + (recent.getD i default).low) / 2,
         bottom := (recent.getD (i-1) default).high,
         top := (recent.getD i default).low,
         gtype := GapType.GAP_UP,
         age_days := recent.length - i,
         size_pct := ((recent.getD i default).low - (recent.getD (i-1) default).high) /
           (recent.getD (i-1) default).high * 100,
         strength := gapStrengthOf (((recent.getD i default).low -
           (recent.getD (i-1) default).high) / (recent.getD (i-1) default).high * 100) })
  else if (recent.getD i default).high < (recent.getD (i-1) default).low then
    (if ∃ b ∈ recent.drop i, (recent.getD (i-1) default).low ≤ b.high then none
     else if (recent.getD i default).high = 0 then none
     else some
       { level := ((recent.getD i default).high + (recent.getD (i-1) default).low) / 2,
         bottom := (recent.getD i default).high,
         top := (recent.getD (i-1) default).low,
         gtype := GapType.GAP_DOWN,
         age_days := recent.length - i,
         size_pct := (((recent.getD (i-1) default).low - (recent.getD i default).high) /
           (recent.getD i default).high) * 100,
         strength := gapStrengthOf ((((recent.getD (i-1) default).low -
           (recent.getD i default).high) / (recent.getD i default).high) * 100) })
  else none

/-- The scanned window: the last `lookback_days` bars when the series is at
least that long, the whole series otherwise. -/
def gapScanWindow (df_1d : List Bar) (lookback_days : ℕ) : List Bar :=
  if lookback_days ≤ df_1d.length then lastN lookback_days df_1d else df_1d

/-- All unfilled gaps collected by the scan loop, in loop order. -/
def all_gaps (df_1d : List Bar) (lookback_days : ℕ) : List GapInfo :=
  (List.range (gapScanWindow df_1d lookback_days).length).filterMap
    (gapAt (gapScanWindow df_1d lookback_days))

/-- Sort key for `gaps_above`: ascending `level`. -/
def levelLE (g1 g2 : GapInfo) : Prop := g1.level ≤ g2.level

/-- Sort key for `gaps_below`: descending `level` (`sorted(..., reverse=True)`). -/
def levelGE (g1 g2 : GapInfo) : Prop := g2.level ≤ g1.level

instance : DecidableRel levelLE := fun g1 g2 => inferInstanceAs (Decidable (g1.level ≤ g2.level))

instance : DecidableRel levelGE := fun g1 g2 => inferInstanceAs (Decidable (g2.level ≤ g1.level))

instance : IsTotal GapInfo levelLE := ⟨fun a b => le_total a.level b.level⟩

instance : IsTrans GapInfo levelLE := ⟨fun _ _ _ h1 h2 => le_trans h1 h2⟩

instance : IsTotal GapInfo levelGE := ⟨fun a b => le_total b.level a.level⟩

instance : IsTrans GapInfo levelGE := ⟨fun _ _ _ h1 h2 => le_trans h2 h1⟩

/-- Source: `find_all_gaps_comprehensive(df_1d, current_price, lookback_days=120)`
returning `(gaps_above, gaps_below)`: the unfilled gaps strictly above /
strictly below the current price (a gap whose midpoint equals the price joins
neither list), sorted by level ascending / descending.  The stable Python
`sorted` is modelled by insertion sort, which is also stable. -/
def find_all_gaps_comprehensive (df_1d : List Bar) (current_price : ℚ)
    (lookback_days : ℕ) : List GapInfo × List GapInfo :=
  if df_1d.length < 3 then ([], [])
  else
    (((all_gaps df_1d lookback_days).filter fun g =>
        decide (current_price < g.level)).insertionSort levelLE,
     ((all_gaps df_1d lookback_days).filter fun g =>
        decide (g.level < current_price)).insertionSort levelGE)

theorem gapAt_age (recent : List Bar) (i : ℕ) (g : GapInfo)
    (h : gapAt recent i = some g) : g.age_days = recent.length - i := by
  unfold gapAt at h
  split_ifs at h <;>
    first
      | exact Option.noConfusion h
      | (cases Option.some.inj h; rfl)

theorem mem_all_gaps (df : List Bar) (lookback : ℕ) (g : GapInfo) :
    g ∈ all_gaps df lookback ↔
      ∃ i, i < (gapScanWindow df lookback).length ∧
        gapAt (gapScanWindow df lookback) i = some g := by
  unfold all_gaps
  rw [List.mem_filterMap]
  constructor
  · rintro ⟨i, hi, hg⟩
    exact ⟨i, List.mem_range.1 hi, hg⟩
  · rintro ⟨i, hi, hg⟩
    exact ⟨i, List.mem_range.2 hi, hg⟩

/-- C10: every gap in `gaps_above` lies strictly above the current price and
every gap in `gaps_below` strictly below; `gaps_above` is sorted by level
ascending and `gaps_below` descending; an unfilled gap whose midpoint equals
the current price is in neither list. -/
theorem gaps_partition_and_sorted (df : List Bar) (p : ℚ) :
    (∀ g ∈ (find_all_gaps_comprehensive df p 120).1, p < g.level) ∧
    (∀ g ∈ (find_all_gaps_comprehensive df p 120).2, g.level < p) ∧
    List.Sorted levelLE (find_all_gaps_comprehensive df p 120).1 ∧
    List.Sorted levelGE (find_all_gaps_comprehensive df p 120).2 ∧
    (∀ g : GapInfo, g.level = p →
      g ∉ (find_all_gaps_comprehensive df p 120).1 ∧
      g ∉ (find_all_gaps_comprehensive df p 120).2) := by
  unfold find_all_gaps_comprehensive
  split_ifs with h3
  · refine ⟨by simp, by simp, List.sorted_nil, List.sorted_nil, fun g _ => ⟨by simp, by simp⟩⟩
  · refine ⟨?_, ?_, List.sorted_insertionSort _ _, List.sorted_insertionSort _ _, ?_⟩
    · intro g hg
      rw [List.mem_insertionSort] at hg
      exact of_decide_eq_true (List.mem_filter.1 hg).2
    · intro g hg
      rw [List.mem_insertionSort] at hg
      exact of_decide_eq_true (List.mem_filter.1 hg).2
    · intro g hgp
      constructor
      · intro hg
        rw [List.mem_insertionSort] at hg
        have h := of_decide_eq_true (List.mem_filter.1 hg).2
        rw [hgp] at h
        exact lt_irrefl p h
      · intro hg
        rw [List.mem_insertionSort] at hg
        have h := of_decide_eq_true (List.mem_filter.1 hg).2
        rw [hgp] at h
        exact lt_irrefl p h

/-- C6 (amended): inside the scanned window, a gap-up pair (`curr.low >
prev.high`) with positive gap bottom is reported among the active gaps exactly
while no bar from the gap bar onwards has traded back down to the gap bottom
and its midpoint differs from the current price; once some later bar fills it,
no gap of its age remains in either list.  Mirrored for gap-down pairs. -/
theorem gap_fill_tracking (df : List Bar) (p : ℚ) (i : ℕ) (recent : List Bar)
    (prev curr : Bar)
    (hrec : recent = gapScanWindow df 120)
    (hprev : prev = recent.getD (i-1) default)
    (hcurr : curr = recent.getD i default)
    (hlen : 3 ≤ df.length) (hi0 : i ≠ 0) (hi : i < recent.length)
    (hwfp : prev.low ≤ prev.high) (hwfc : curr.low ≤ curr.high) :
    (prev.high < curr.low →
      ((0 < prev.high → (∀ b ∈ recent.drop i, prev.high < b.low) →
        (prev.high + curr.low) / 2 ≠ p →
        ∃ g, (g ∈ (find_all_gaps_comprehensive df p 120).1 ∨
              g ∈ (find_all_gaps_comprehensive df p 120).2) ∧
          g.bottom = prev.high ∧ g.top = curr.low ∧ g.gtype = GapType.GAP_UP ∧
          g.age_days = recent.length - i) ∧
       ((∃ b ∈ recent.drop i, b.low ≤ prev.high) →
        ∀ g : GapInfo, g.age_days = recent.length - i →
          g ∉ (find_all_gaps_comprehensive df p 120).1 ∧
          g ∉ (find_all_gaps_comprehensive df p 120).2))) ∧
    (curr.high < prev.low →
      ((0 < curr.high → (∀ b ∈ recent.drop i, b.high < prev.low) →
        (curr.high + prev.low) / 2 ≠ p →
        ∃ g, (g ∈ (find_all_gaps_comprehensive df p 120).1 ∨
              g ∈ (find_all_gaps_comprehensive df p 120).2) ∧
          g.bottom = curr.high ∧ g.top = prev.low ∧ g.gtype = GapType.GAP_DOWN ∧
          g.age_days = recent.length - i) ∧
       ((∃ b ∈ recent.drop i, prev.low ≤ b.high) →
        ∀ g : GapInfo, g.age_days = recent.length - i →
          g ∉ (find_all_gaps_comprehensive df p 120).1 ∧
          g ∉ (find_all_gaps_comprehensive df p 120).2))) := by
  have hnot3 : ¬ df.length < 3 := by omega
  subst hprev hcurr
  have hfind : find_all_gaps_comprehensive df p 120 =
      (((all_gaps df 120).filter fun g => decide (p < g.level)).insertionSort levelLE,
       ((all_gaps df 120).filter fun g => decide (g.level < p)).insertionSort levelGE) := by
    unfold find_all_gaps_comprehensive
    rw [if_neg hnot3]
  have mem_find (g : GapInfo) :
      (g ∈ (find_all_gaps_comprehensive df p 120).1 ∨
       g ∈ (find_all_gaps_comprehensive df p 120).2) ↔
      (g ∈ all_gaps df 120 ∧ (p < g.level ∨ g.level < p)) := by
    rw [hfind]
    constructor
    · rintro (hg | hg) <;> rw [List.mem_insertionSort] at hg <;>
        obtain ⟨hmem, hdec⟩ := List.mem_filter.1 hg
      · exact ⟨hmem, Or.inl (of_decide_eq_true hdec)⟩
      · exact ⟨hmem, Or.inr (of_decide_eq_true hdec)⟩
    · rintro ⟨hmem, hlt | hlt⟩
      · left
        rw [List.mem_insertionSort]
        exact List.mem_filter.2 ⟨hmem, decide_eq_true hlt⟩
      · right
        rw [List.mem_insertionSort]
        exact List.mem_filter.2 ⟨hmem, decide_eq_true hlt⟩
  constructor
  · intro hgap
    constructor
    · intro hpos hnofill hmid
      have hga : gapAt (gapScanWindow df 120) i = some
          { level := ((recent.getD (i-1) default).high + (recent.getD i default).low) / 2,
            bottom := (recent.getD (i-1) default).high,
            top := (recent.getD i default).low,
            gtype := GapType.GAP_UP,
            age_days := recent.length - i,
            size_pct := ((recent.getD i default).low - (recent.getD (i-1) default).high) /
              (recent.getD (i-1) default).high * 100,
            strength := gapStrengthOf (((recent.getD i default).low -
              (recent.getD (i-1) default).high) / (recent.getD (i-1) default).high * 100) } := by
        rw [← hrec]
        unfold gapAt
        rw [if_neg hi0, if_neg (not_le.2 hi), if_pos hgap,
          if_neg (by rintro ⟨b, hb, hble⟩; exact absurd hble (not_le.2 (hnofill b hb))),
          if_neg (ne_of_gt hpos)]
      refine ⟨⟨((recent.getD (i-1) default).high + (recent.getD i default).low) / 2,
        (recent.getD (i-1) default).high, (recent.getD i default).low, GapType.GAP_UP,
        recent.length - i,
        ((recent.getD i default).low - (recent.getD (i-1) default).high) /
          (recent.getD (i-1) default).high * 100,
        gapStrengthOf (((recent.getD i default).low - (recent.getD (i-1) default).high) /
          (recent.getD (i-1) default).high * 100)⟩, ?_, rfl, rfl, rfl, rfl⟩
      rw [mem_find]
      refine ⟨(mem_all_gaps df 120 _).2 ⟨i, by rw [← hrec]; exact hi, hga⟩, ?_⟩
      rcases (lt_or_gt_of_ne (Ne.symm hmid)) with h | h
      · exact Or.inl h
      · exact Or.inr h
    · intro hfill g hage
      have hnone : gapAt (gapScanWindow df 120) i = none := by
        rw [← hrec]
        unfold gapAt
        rw [if_neg hi0, if_neg (not_le.2 hi), if_pos hgap, if_pos hfill]
      have hnotin : g ∉ all_gaps df 120 := by
        intro hmem
        obtain ⟨i2, hi2, hga2⟩ := (mem_all_gaps df 120 g).1 hmem
        have hage2 := gapAt_age _ _ _ hga2
        have : i2 = i := by
          rw [← hrec] at hi2 hage2
          omega
        rw [this, hnone] at hga2
        exact Option.noConfusion hga2
      constructor
      · intro hg
        rw [hfind] at hg
        rw [List.mem_insertionSort] at hg
        exact hnotin (List.mem_filter.1 hg).1
      · intro hg
        rw [hfind] at hg
        rw [List.mem_insertionSort] at hg
        exact hnotin (List.mem_filter.1 hg).1
  · intro hgap
    have hnotup : ¬ (recent.getD (i-1) default).high < (recent.getD i default).low := by
      intro hup
      exact absurd (hup.trans_le hwfc) (not_lt.2 (le_of_lt (hgap.trans_le hwfp)))
    constructor
    · intro hpos hnofill hmid
      have hga : gapAt (gapScanWindow df 120) i = some
          { level := ((recent.getD i default).high + (recent.getD (i-1) default).low) / 2,
            bottom := (recent.getD i default).high,
            top := (recent.getD (i-1) default).low,
            gtype := GapType.GAP_DOWN,
            age_days := recent.length - i,
            size_pct := (((recent.getD (i-1) default).low - (recent.getD i default).high) /
              (recent.getD i default).high) * 100,
            strength := gapStrengthOf ((((recent.getD (i-1) default).low -
              (recent.getD i default).high) / (recent.getD i default).high) * 100) } := by
        rw [← hrec]
        unfold gapAt
        rw [if_neg hi0, if_neg (not_le.2 hi), if_neg hnotup, if_pos hgap,
          if_neg (by rintro ⟨b, hb, hble⟩; exact absurd hble (not_le.2 (hnofill b hb))),
          if_neg (ne_of_gt hpos)]
      refine ⟨⟨((recent.getD i default).high + (recent.getD (i-1) default).low) / 2,
        (recent.getD i default).high, (recent.getD (i-1) default).low, GapType.GAP_DOWN,
        recent.length - i,
        (((recent.getD (i-1) default).low - (recent.getD i default).high) /
          (recent.getD i default).high) * 100,
        gapStrengthOf ((((recent.getD (i-1) default).low - (recent.getD i default).high) /
          (recent.getD i default).high) * 100)⟩, ?_, rfl, rfl, rfl, rfl⟩
      rw [mem_find]
      refine ⟨(mem_all_gaps df 120 _).2 ⟨i, by rw [← hrec]; exact hi, hga⟩, ?_⟩
      rcases (lt_or_gt_of_ne (Ne.symm hmid)) with h | h
      · exact Or.inl h
      · exact Or.inr h
    · intro hfill g hage
      have hnone : gapAt (gapScanWindow df 120) i = none := by
        rw [← hrec]
        unfold gapAt
        rw [if_neg hi0, if_neg (not_le.2 hi), if_neg hnotup, if_pos hgap, if_pos hfill]
      have hnotin : g ∉ all_gaps df 120 := by
        intro hmem
        obtain ⟨i2, hi2, hga2⟩ := (mem_all_gaps df 120 g).1 hmem
        have hage2 := gapAt_age _ _ _ hga2
        have : i2 = i := by
          rw [← hrec] at hi2 hage2
          omega
        rw [this, hnone] at hga2
        exact Option.noConfusion hga2
      constructor
      · intro hg
        rw [hfind] at hg
        rw [List.mem_insertionSort] at hg
        exact hnotin (List.mem_filter.1 hg).1
      · intro hg
        rw [hfind] at hg
        rw [List.mem_insertionSort] at hg
        exact hnotin (List.mem_filter.1 hg).1

/-- A 3-bar fixture with an unfilled gap up (100 → 120, midpoint 110) and an
unfilled gap down (120 → 115, midpoint 117.5). -/
def gapFixture : List Bar :=
  [⟨95, 100, 90, 95, 1⟩, ⟨125, 130, 120, 125, 1⟩, ⟨110, 115, 105, 110, 1⟩]

theorem gapFixture_eval :
    find_all_gaps_comprehensive gapFixture 112 120 =
      ([⟨235/2, 115, 120, .GAP_DOWN, 1, 100/23, .STRONG⟩],
       [⟨110, 100, 120, .GAP_UP, 2, 20, .STRONG⟩]) := by
  norm_num [find_all_gaps_comprehensive, all_gaps, gapScanWindow, gapAt, gapStrengthOf,
    lastN, gapFixture, levelLE, levelGE, List.range_succ, List.insertionSort,
    List.orderedInsert, List.filterMap_append, List.filterMap_cons]

theorem gaps_partition_and_sorted_witness : (112 : ℚ) < 235/2 :=
  (gaps_partition_and_sorted gapFixture 112).1
    ⟨235/2, 115, 120, .GAP_DOWN, 1, 100/23, .STRONG⟩
    (by rw [gapFixture_eval]; simp)

/-- A 3-bar fixture whose only gap (10 → 12) stays unfilled and has midpoint
exactly 11. -/
def gapMidFixture : List Bar :=
  [⟨9, 10, 9, 9, 1⟩, ⟨12, 13, 12, 12, 1⟩, ⟨12, 13, 12, 12, 1⟩]

/-- C6 counterexample: `gapMidFixture` has an unfilled gap-up pair at index 1
(low 12 > prior high 10, and no later bar retraces to ≤ 10), yet with current
price 11 — the gap midpoint — the scan returns it in neither active-gap list. -/
theorem gap_fill_tracking_counterexample :
    (gapMidFixture.getD 0 default).high < (gapMidFixture.getD 1 default).low ∧
    (∀ b ∈ gapMidFixture.drop 1, (gapMidFixture.getD 0 default).high < b.low) ∧
    find_all_gaps_comprehensive gapMidFixture 11 120 = ([], []) := by
  refine ⟨by norm_num [gapMidFixture], ?_, ?_⟩
  · intro b hb
    simp only [gapMidFixture, List.drop_succ_cons, List.drop_zero, List.mem_cons,
      List.mem_singleton] at hb
    rcases hb with rfl | rfl | h
    · norm_num [gapMidFixture]
    · norm_num [gapMidFixture]
    · exact absurd h (List.not_mem_nil b)
  · norm_num [find_all_gaps_comprehensive, all_gaps, gapScanWindow, gapAt, gapStrengthOf,
      lastN, gapMidFixture, levelLE, levelGE, List.range_succ, List.insertionSort,
      List.orderedInsert, List.filterMap_append, List.filterMap_cons]

theorem gap_fill_tracking_witness :
    ∃ g, (g ∈ (find_all_gaps_comprehensive gapMidFixture 5 120).1 ∨
          g ∈ (find_all_gaps_comprehensive gapMidFixture 5 120).2) ∧
      g.bottom = 10 ∧ g.top = 12 ∧ g.gtype = GapType.GAP_UP ∧ g.age_days = 2 := by
  have h := (gap_fill_tracking gapMidFixture 5 1 gapMidFixture
      ⟨9, 10, 9, 9, 1⟩ ⟨12, 13, 12, 12, 1⟩ rfl rfl rfl
      (by norm_num [gapMidFixture]) (by norm_num)
      (by norm_num [gapMidFixture]) (by norm_num) (by norm_num)).1
    (by norm_num)
  obtain ⟨g, hm, hb, ht, hty, hage⟩ := h.1 (by norm_num)
    (by
      intro b hb
      simp only [gapMidFixture, List.drop_succ_cons, List.drop_zero, List.mem_cons,
        List.mem_singleton] at hb
      rcases hb with rfl | rfl | hcon
      · norm_num
      · norm_num
      · exact absurd hcon (List.not_mem_nil b))
    (by norm_num)
  exact ⟨g, hm, by simpa using hb, by simpa using ht, hty, by simpa [gapMidFixture] using hage⟩

/-! ### Confidence scoring of analyze_pre_ny (V3, max_score = 6) -/

/-- Labels of `rsi_signal` in `analyze_technical_indicators`. -/
inductive RsiSig where
  | OVERSOLD
  | OVERBOUGHT
  | BULLISH_ZONE
  | BEARISH_ZONE
  | NEUTRAL
deriving DecidableEq

/-- Labels of `macd_signal` in `calculate_macd`. -/
inductive MacdSig where
  | BULLISH_CROSS
  | BEARISH_CROSS
  | BULLISH
  | BEARISH
  | NEUTRAL
deriving DecidableEq

/-- Labels of `ema_signal` in `analyze_technical_indicators`. -/
inductive EmaSig where
  | ABOVE_STRONG
  | ABOVE
  | BELOW_STRONG
  | BELOW
  | NEUTRAL
deriving DecidableEq

instance : Inhabited GapInfo := ⟨⟨0, 0, 0, .GAP_UP, 0, 0, .WEAK⟩⟩

/-- The data consumed by the decision block of `analyze_pre_ny` that determines
the accumulated confidence: the gap signal, price vs pivot, the indicator
labels, the volume trigger, the two active-gap lists and the two historical
levels (NaN as `none`). -/
structure ScoreInputs where
  gap_signal : GapSignal
  last_price : ℚ
  PP : ℚ
  rsi_signal : RsiSig
  macd_signal : MacdSig
  ema_signal : EmaSig
  high_volume : Bool
  gaps_above : List GapInfo
  gaps_below : List GapInfo
  R2_hist : Option ℚ
  S2_hist : Option ℚ

/-- Nearness test of the NO_GAP branches: the list is nonempty and the level of
its first gap is within 2% of the current price. -/
abbrev nearGapP (p : ℚ) (gaps : List GapInfo) : Prop :=
  gaps ≠ [] ∧ |(gaps.headD default).level - p| / p < 1/50

/-- Strong-level test (`strong_resistance` / `strong_support`): the historical
level is defined and within 1% of the price. -/
abbrev strongLevelP (p : ℚ) (lvl : Option ℚ) : Prop :=
  lvl ≠ none ∧ |p - lvl.getD 0| / p < 1/100

/-- The raw accumulated confidence of one analysis pass (source: the
`gap_signal` decision block of `analyze_pre_ny` in V3).  Only the confidence
arithmetic is kept — the level assignments of each branch do not feed back
into the score.  Grouping mirrors the source: base gap points, pivot-structure
alignment (+1 / −0.5), `indicator_score` (with the −0.5 penalties for a
contrarian RSI or MACD), and the flat +1 volume trigger. -/
def confidence_raw (inp : ScoreInputs) : ℚ :=
  match inp.gap_signal with
  | .SHORT_TO_FILL =>
    2 + (if inp.PP < inp.last_price then 1 else -(1/2)) +
    ((if inp.rsi_signal = .OVERBOUGHT then 1
      else if inp.rsi_signal = .BEARISH_ZONE then 1/2 else -(1/2)) +
     (if inp.macd_signal = .BEARISH_CROSS then 1
      else if inp.macd_signal = .BEARISH then 1/2
      else if inp.macd_signal = .BULLISH_CROSS ∨ inp.macd_signal = .BULLISH then -(1/2)
      else 0) +
     (if inp.ema_signal = .BELOW_STRONG ∨ inp.ema_signal = .BELOW then 1/2 else 0)) +
    (if inp.high_volume then 1 else 0)
  | .LONG_TO_FILL =>
    2 + (if inp.last_price < inp.PP then 1 else -(1/2)) +
    ((if inp.rsi_signal = .OVERSOLD then 1
      else if inp.rsi_signal = .BULLISH_ZONE then 1/2 else -(1/2)) +
     (if inp.macd_signal = .BULLISH_CROSS then 1
      else if inp.macd_signal = .BULLISH then 1/2
      else if inp.macd_signal = .BEARISH_CROSS ∨ inp.macd_signal = .BEARISH then -(1/2)
      else 0) +
     (if inp.ema_signal = .ABOVE_STRONG ∨ inp.ema_signal = .ABOVE then 1/2 else 0)) +
    (if inp.high_volume then 1 else 0)
  | .NO_GAP =>
    if nearGapP inp.last_price inp.gaps_above then
      3/2 + ((if inp.rsi_signal = .OVERBOUGHT ∨ inp.rsi_signal = .BEARISH_ZONE then 1 else 0) +
             (if inp.macd_signal = .BEARISH_CROSS ∨ inp.macd_signal = .BEARISH then 1 else 0))
    else if nearGapP inp.last_price inp.gaps_below then
      3/2 + ((if inp.rsi_signal = .OVERSOLD ∨ inp.rsi_signal = .BULLISH_ZONE then 1 else 0) +
             (if inp.macd_signal = .BULLISH_CROSS ∨ inp.macd_signal = .BULLISH then 1 else 0))
    else if strongLevelP inp.last_price inp.R2_hist ∧ inp.R2_hist.getD 0 ≤ inp.last_price then
      3/2 + ((if inp.rsi_signal = .OVERBOUGHT ∨ inp.rsi_signal = .BEARISH_ZONE then 1 else 0) +
             (if inp.macd_signal = .BEARISH_CROSS ∨ inp.macd_signal = .BEARISH then 1 else 0)) +
      (if inp.high_volume then 1 else 0)
    else if strongLevelP inp.last_price inp.S2_hist ∧ inp.last_price ≤ inp.S2_hist.getD 0 then
      3/2 + ((if inp.rsi_signal = .OVERSOLD ∨ inp.rsi_signal = .BULLISH_ZONE then 1 else 0) +
             (if inp.macd_signal = .BULLISH_CROSS ∨ inp.macd_signal = .BULLISH then 1 else 0)) +
      (if inp.high_volume then 1 else 0)
    else 0

/-- The reported percentage: the raw confidence is multiplied once by the
market-structure adjustment, then `confidence_pct = min(100,
(confidence / max_score) * 100)` with `max_score = 6`. -/
def confidence_pct (inp : ScoreInputs) (ms : StructureResult) : ℚ :=
  min 100 (confidence_raw inp * ms.confidence_adjustment / 6 * 100)

theorem confidence_raw_nonneg (inp : ScoreInputs) : 0 ≤ confidence_raw inp := by
  obtain ⟨gs, p, pp, rsi, macd, ema, hv, ga, gb, r2, s2⟩ := inp
  cases gs <;> unfold confidence_raw <;> dsimp only <;> split_ifs <;> norm_num

theorem structure_adjustment_pos (df : List Bar) (p : ℚ) :
    0 < (analyze_market_structure df p).confidence_adjustment := by
  unfold analyze_market_structure
  split_ifs <;> norm_num

/-- C3: the reported confidence percentage of an analysis pass — raw score
times the market-phase multiplier, divided by the fixed ceiling 6 and clamped
with `min 100` — always lies in `[0, 100]`, penalties and multiplier
included. -/
theorem confidence_pct_bounds (inp : ScoreInputs) (df : List Bar) (p : ℚ) :
    0 ≤ confidence_pct inp (analyze_market_structure df p) ∧
    confidence_pct inp (analyze_market_structure df p) ≤ 100 := by
  have h1 := confidence_raw_nonneg inp
  have h2 := structure_adjustment_pos df p
  unfold confidence_pct
  refine ⟨le_min (by norm_num) ?_, min_le_left _ _⟩
  have h3 : 0 ≤ confidence_raw inp * (analyze_market_structure df p).confidence_adjustment :=
    mul_nonneg h1 h2.le
  exact mul_nonneg (div_nonneg h3 (by norm_num)) (by norm_num)

end GapFillStrategy
